import Mathlib

/-!
Verification of the incremental harvesting engine of `src/src/App.tsx`
(tweet scraper): the in-page Collector (`collectTweets` / `scrollAndCollect`),
the per-item secondary fetch (`scrapeComments`), the Orchestrator
(`scrapeTweets`), and the export shape (`copyJsonToClipboard`).

The DOM and the chrome automation surface are external to the program; they
are embedded as explicit inputs:
* a rendered candidate node (`[data-testid="cellInnerDiv"]` element) is
  abstracted by the values its sub-queries yield (`DomNode`), with `none`
  standing for a missing element/attribute (JS `null`/`undefined`);
* the document at each polling tick is a `DocTick` (node list + scrollHeight
  after the scroll-to-bottom of that tick); a whole run's document behaviour
  is a function from the tick index (starting at 1) to a `DocTick`;
* the chrome tab/query/navigate/executeScript surface of the Orchestrator is
  a `RunEnv` / `CommentEnv`, with `Option`/`Except` for the fallible calls.

Machine integers do not overflow in the relevant code (array lengths,
attempt counters), so they are embedded as `Nat`.
-/

namespace TweetScraper

/-- `Comment` record produced by the injected reply extractor
(`src/src/App.tsx`, lines 402-414). -/
structure Comment where
  text : String
  userName : String
  timestamp : String
  likes : String
  replies : String
deriving DecidableEq, Repr

/-- `Tweet` record produced by the Collector (lines 243-251, 299-307). -/
structure Tweet where
  tweet : String
  userName : String
  timestamp : String
  likes : String
  retweets : String
  tweetUrl : String
  comments : List Comment
deriving DecidableEq, Repr

/-- One rendered candidate item node, abstracted by what its sub-queries
return: `statusHref` is the status link address (`none` when the link or
attribute is missing), the remaining fields are the text/attribute values of
the other selectors (`none` = missing). -/
structure DomNode where
  statusHref : Option String
  tweetText : Option String
  userName : Option String
  datetime : Option String
  likeAria : Option String
  retweetAria : Option String
deriving DecidableEq, Repr

/-- JS `aria.split(' ')[0] || '0'` applied to an aria-label string. -/
def firstWordOr0 (s : String) : String :=
  let w := (s.splitOn " ").headD ""
  if w = "" then "0" else w

/-- Field extraction for one accepted candidate node (lines 299-307): each
field is best-effort with a default, `url` is the accepted status href. -/
def extractTweet (url : String) (n : DomNode) : Tweet :=
  { tweet := n.tweetText.getD ""
  , userName := n.userName.getD ""
  , timestamp := n.datetime.getD ""
  , likes := match n.likeAria with | none => "0" | some s => firstWordOr0 s
  , retweets := match n.retweetAria with | none => "0" | some s => firstWordOr0 s
  , tweetUrl := url
  , comments := [] }

/-- The per-element loop body of one polling tick (lines 287-312): skip a
node with a missing or falsy (empty) url or an already-seen url, otherwise
append the extracted tweet and mark the url seen.  The JS `Set`
`processedTweetUrls` is embedded as the list `seen` (membership only;
insertion keeps it equal to the urls of the accumulated tweets). -/
def processTick : List String → List Tweet → List DomNode → List String × List Tweet
  | seen, tweets, [] => (seen, tweets)
  | seen, tweets, n :: ns =>
    match n.statusHref with
    | none => processTick seen tweets ns
    | some url =>
      if url = "" ∨ url ∈ seen then processTick seen tweets ns
      else processTick (seen ++ [url]) (tweets ++ [extractTweet url n]) ns

/-- The urls a tick's node list offers to the dedup step: the present,
non-empty status hrefs in document order. -/
def tickUrls : List DomNode → List String
  | [] => []
  | n :: ns =>
    match n.statusHref with
    | none => tickUrls ns
    | some url => if url = "" then tickUrls ns else url :: tickUrls ns

/-- Specification-side function, following the spec's words: "the sequence of
first-seen distinct URLs across ticks" — scan the url stream, keeping each
url the first time it appears and dropping later occurrences. -/
def firstSeenDistinct : List String → List String → List String
  | _, [] => []
  | seen, u :: us =>
    if u ∈ seen then firstSeenDistinct seen us
    else u :: firstSeenDistinct (seen ++ [u]) us

/-- The document as observed at one polling tick: rendered candidate nodes
and `document.body.scrollHeight` right after the tick's scroll-to-bottom. -/
structure DocTick where
  nodes : List DomNode
  scrollHeight : Nat
deriving DecidableEq, Repr

/-- The document behaviour over a run: tick index (starting at 1) to the
document state at that tick. -/
abbrev DocBehavior := Nat → DocTick

/-- `maxScrollAttempts` (line 279). -/
def maxScrollAttempts : Nat := 50

/-- The `setInterval` loop of `scrollAndCollect` (lines 283-330), as a
fuel-indexed step function: at each tick the node list is scanned and
deduplicated, the attempt counter (`attempt`, the value after the tick's
increment, starting at 1) advances, and the loop resolves when the content
extent stagnates, the target is reached, or the attempt ceiling is hit;
otherwise `previousHeight` is updated and the next tick fires.  `none` is
fuel exhaustion only (never reached from `scrollAndCollect`, see
`scrollLoop_total`). -/
def scrollLoop (beh : DocBehavior) (target : Nat) :
    Nat → Nat → List String → List Tweet → Nat → Option (List Tweet × Nat)
  | 0, _, _, _, _ => none
  | fuel + 1, previousHeight, seen, tweets, attempt =>
    let st := processTick seen tweets (beh attempt).nodes
    let currentHeight := (beh attempt).scrollHeight
    if currentHeight = previousHeight ∨ target ≤ st.2.length ∨
        maxScrollAttempts ≤ attempt then
      some (st.2, attempt)
    else
      scrollLoop beh target fuel currentHeight st.1 st.2 (attempt + 1)

/-- `scrollAndCollect` (lines 275-332): `previousHeight = 0`, empty seen set,
empty accumulator, first tick is attempt 1; the promise resolves with the
accumulated tweet list (paired here with the resolving tick index). -/
def scrollAndCollect (beh : DocBehavior) (target : Nat) :
    Option (List Tweet × Nat) :=
  scrollLoop beh target maxScrollAttempts 0 [] [] 1

/-- The url stream offered to the dedup step over `n` consecutive ticks
starting at tick `a`. -/
def urlStream (beh : DocBehavior) : Nat → Nat → List String
  | _, 0 => []
  | a, n + 1 => tickUrls (beh a).nodes ++ urlStream beh (a + 1) n

/-- `n` copies of one tick's url list, concatenated: the url stream of a
static document. -/
def repStream (us : List String) : Nat → List String
  | 0 => []
  | n + 1 => us ++ repStream us n

/-- One rendered comment element on a detail page, abstracted by the values
its sub-queries yield (lines 405-412). -/
structure CommentNode where
  tweetText : Option String
  userName : Option String
  datetime : Option String
  likeAria : Option String
  replyAria : Option String
deriving DecidableEq, Repr

/-- The injected reply extractor's per-element record (lines 406-412). -/
def extractComment (c : CommentNode) : Comment :=
  { text := c.tweetText.getD ""
  , userName := c.userName.getD ""
  , timestamp := c.datetime.getD ""
  , likes := match c.likeAria with | none => "0" | some s => firstWordOr0 s
  , replies := match c.replyAria with | none => "0" | some s => firstWordOr0 s }

/-- Chrome automation surface as seen by one `scrapeComments` call:
`tab = none` models a missing active tab id (the missing-tab throw),
`navigateOk = false` a throwing `chrome.tabs.update`, and `execResult` the
`chrome.scripting.executeScript` outcome — `Except.error` a throw,
`Except.ok none` a null `result.result`, `Except.ok (some ns)` the comment
elements found on the detail page. -/
structure CommentEnv where
  tab : Option Nat
  navigateOk : Bool
  execResult : Except Unit (Option (List CommentNode))

/-- `scrapeComments` (lines 389-425).  First component: the returned comment
list — the catch-all `catch` clause makes every failure return `[]`.  Second
component: instrumentation recording the detail-page navigations attempted
by this call (the `chrome.tabs.update` to `https://twitter.com` + url),
which happen exactly when the active tab id check passed. -/
def scrapeComments (e : CommentEnv) (tweetUrl : String) :
    List Comment × List String :=
  match e.tab with
  | none => ([], [])
  | some _ =>
    if e.navigateOk then
      match e.execResult with
      | Except.error _ => ([], ["https://twitter.com" ++ tweetUrl])
      | Except.ok none => ([], ["https://twitter.com" ++ tweetUrl])
      | Except.ok (some nodes) =>
        (nodes.map extractComment, ["https://twitter.com" ++ tweetUrl])
    else ([], ["https://twitter.com" ++ tweetUrl])

/-- The secondary fetch throws somewhere inside its `try` block: the tab
query yields no usable id, the navigation throws, or the injected extraction
script throws (navigation error, extraction error, timeout). -/
def fetchThrows (e : CommentEnv) : Prop :=
  e.tab = none ∨ e.navigateOk = false ∨ e.execResult = Except.error ()

/-- The active view handle: a usable tab id together with the tab's address
(`tab.url`, which the chrome API may omit). -/
structure TabInfo where
  id : Nat
  url : Option String
deriving DecidableEq, Repr

/-- The two fatal errors of `scrapeTweets` (lines 436-438, 459-461): no
active tab found, and no tweets found on the page. -/
inductive RunError where
  | noActiveContext
  | emptyResult
deriving DecidableEq, Repr

/-- Chrome automation surface as seen by one `scrapeTweets` run: the initial
active-tab query (`none` when no automatable view is available), the
Collector's resolved list as a function of the injected target count, and
the per-call environment of the i-th secondary fetch. -/
structure RunEnv where
  tab : Option TabInfo
  collectItems : Nat → List Tweet
  commentEnv : Nat → CommentEnv

/-- The per-tweet loop body of `scrapeTweets` (lines 467-474): if the i-th
tweet has a truthy `tweetUrl`, fetch its comments with the i-th fetch
environment and overwrite its `comments` field; otherwise leave the tweet
untouched. -/
def attachOne (e : CommentEnv) (t : Tweet) : Tweet × List String :=
  if t.tweetUrl = "" then (t, [])
  else
    ({ t with comments := (scrapeComments e t.tweetUrl).1 },
      (scrapeComments e t.tweetUrl).2)

/-- Sequential fold of `attachOne` over the collected tweets, threading the
loop index and concatenating the navigation traces in loop order. -/
def attachComments (cenv : Nat → CommentEnv) : Nat → List Tweet → List Tweet × List String
  | _, [] => ([], [])
  | i, t :: ts =>
    ((attachOne (cenv i) t).1 :: (attachComments cenv (i + 1) ts).1,
      (attachOne (cenv i) t).2 ++ (attachComments cenv (i + 1) ts).2)

/-- The post-tab-check body of `scrapeTweets` (lines 440-479): check the
Collector result for emptiness, capture `originalUrl`, run the per-tweet
loop, then navigate back to `originalUrl` when it is truthy.  Second
component: the navigation trace of the run. -/
def scrapeTweetsWithTab (env : RunEnv) (tweetCount : Nat) (tab : TabInfo) :
    Except RunError (List Tweet) × List String :=
  let items := env.collectItems tweetCount
  if items.length = 0 then (Except.error RunError.emptyResult, [])
  else
    let r := attachComments env.commentEnv 0 items
    let restore : List String :=
      match tab.url with
      | some s => if s = "" then [] else [s]
      | none => []
    (Except.ok r.1, r.2 ++ restore)

/-- `scrapeTweets` (lines 427-490): resolve the active view, fail fast with
`noActiveContext` when there is none; inject the target count and run the
Collector; fail with `emptyResult` when it yields nothing; otherwise attach
comments per item and restore the original address.  First component: the
run's outcome; second: its navigation trace. -/
def scrapeTweets (env : RunEnv) (tweetCount : Nat) :
    Except RunError (List Tweet) × List String :=
  match env.tab with
  | none => (Except.error RunError.noActiveContext, [])
  | some tab => scrapeTweetsWithTab env tweetCount tab

/-- JSON values, as far as the export shape needs: an object is an ordered
key/value list (mirroring the literal object layout in the source). -/
inductive Json where
  | str : String → Json
  | num : Nat → Json
  | arr : List Json → Json
  | obj : List (String × Json) → Json

/-- The per-comment record of `copyJsonToClipboard` (lines 358-368). -/
def commentJson (c : Comment) : Json :=
  Json.obj
    [("content", Json.str c.text),
     ("metadata", Json.obj
       [("author", Json.str c.userName),
        ("postedAt", Json.str c.timestamp),
        ("engagement", Json.obj
          [("likes", Json.str c.likes),
           ("replies", Json.str c.replies)])])]

/-- The per-tweet record of `copyJsonToClipboard` (lines 346-369). -/
def tweetJson (t : Tweet) : Json :=
  Json.obj
    [("content", Json.str t.tweet),
     ("metadata", Json.obj
       [("author", Json.str t.userName),
        ("postedAt", Json.str t.timestamp),
        ("engagement", Json.obj
          [("likes", Json.str t.likes),
           ("retweets", Json.str t.retweets),
           ("commentCount", Json.num t.comments.length)]),
        ("url", Json.str t.tweetUrl)]),
     ("comments", Json.arr (t.comments.map commentJson))]

/-- `formattedData` of `copyJsonToClipboard` (lines 342-370): the serialized
export record, parametrized by the harvested tweets, the search term state,
and the `new Date().toISOString()` value. -/
def formattedData (tweets : List Tweet) (searchTerm scrapeTimestamp : String) :
    Json :=
  Json.obj
    [("totalTweets", Json.num tweets.length),
     ("searchItem", Json.str searchTerm),
     ("scrapeTimestamp", Json.str scrapeTimestamp),
     ("tweets", Json.arr (tweets.map tweetJson))]

/-- Spec-side reply record, following the claim's words: content plus
metadata with author, postedAt and an engagement record of likes and the
reply count, with the spec's vocabulary mapped to the code's key strings per
the spec's glossary (Reply = comment, replyCount = the `replies` field). -/
def claimReplyJson (c : Comment) : Json :=
  Json.obj
    [("content", Json.str c.text),
     ("metadata", Json.obj
       [("author", Json.str c.userName),
        ("postedAt", Json.str c.timestamp),
        ("engagement", Json.obj
          [("likes", Json.str c.likes),
           ("replies", Json.str c.replies)])])]

/-- Spec-side item record, following the claim's words: content, metadata
with author, postedAt, an engagement record of likes, shares and the reply
count, the url, and the nested replies — glossary-mapped (Item = tweet,
shares = retweets, replyCount = commentCount, replies = comments). -/
def claimItemJson (t : Tweet) : Json :=
  Json.obj
    [("content", Json.str t.tweet),
     ("metadata", Json.obj
       [("author", Json.str t.userName),
        ("postedAt", Json.str t.timestamp),
        ("engagement", Json.obj
          [("likes", Json.str t.likes),
           ("retweets", Json.str t.retweets),
           ("commentCount", Json.num t.comments.length)]),
        ("url", Json.str t.tweetUrl)]),
     ("comments", Json.arr (t.comments.map claimReplyJson))]

/-- Spec-side export record, following the claim's words: "exactly the
nested record of totalItems and items" — glossary-mapped to the code's key
strings (totalItems = totalTweets, items = tweets), with no other top-level
keys. -/
def claimedExport (tweets : List Tweet) : Json :=
  Json.obj
    [("totalTweets", Json.num tweets.length),
     ("tweets", Json.arr (tweets.map claimItemJson))]

/-- The top-level key list of a JSON object. -/
def Json.topKeys : Json → List String
  | Json.obj kvs => kvs.map Prod.fst
  | _ => []

/-- Look up a top-level field of a JSON object. -/
def Json.field (j : Json) (k : String) : Option Json :=
  match j with
  | Json.obj kvs => (kvs.find? fun p => p.1 == k).map Prod.snd
  | _ => none

/-- A candidate node carrying only a status link (all other selectors
missing), used as concrete input for witnesses. -/
def sampleNode (u : String) : DomNode :=
  ⟨some u, none, none, none, none, none⟩

/-- The tweet the Collector extracts from `sampleNode u`: every best-effort
field takes its default. -/
def sampleTweet (u : String) : Tweet :=
  ⟨"", "", "", "0", "0", u, []⟩

/-- Static document with two nodes sharing one url plus one distinct url. -/
def sampleDoc2 : DocTick :=
  ⟨[sampleNode "/a/status/1", sampleNode "/a/status/1",
    sampleNode "/a/status/2"], 10⟩

/-- Static document with three distinct candidate nodes. -/
def sampleDoc3 : DocTick :=
  ⟨[sampleNode "/a/status/1", sampleNode "/a/status/2",
    sampleNode "/a/status/3"], 10⟩

/-- A feed that never renders any candidate node. -/
def emptyBeh : DocBehavior := fun _ => ⟨[], 0⟩

/-- A secondary-fetch environment in which every call succeeds and finds no
comment elements. -/
def okCommentEnv : CommentEnv := ⟨some 1, true, Except.ok (some [])⟩

/-- A secondary-fetch environment whose navigation throws. -/
def badCommentEnv : CommentEnv := ⟨some 1, false, Except.ok (some [])⟩

/-- A secondary-fetch environment in which the active-tab query yields no
usable tab (the view became unavailable mid-run). -/
def noTabCommentEnv : CommentEnv := ⟨none, true, Except.ok (some [])⟩

/-- An active tab sitting on a search page. -/
def sampleTab : TabInfo := ⟨1, some "https://twitter.com/search"⟩

/-- Run environment with no automatable view. -/
def sampleEnvNoTab : RunEnv :=
  ⟨none, fun _ => [sampleTweet "/a/status/1"], fun _ => okCommentEnv⟩

/-- Run environment whose Collector yields nothing. -/
def sampleEnvEmpty : RunEnv :=
  ⟨some sampleTab, fun _ => [], fun _ => okCommentEnv⟩

/-- Run environment with one collected tweet and healthy fetches. -/
def sampleEnvOk : RunEnv :=
  ⟨some sampleTab, fun _ => [sampleTweet "/a/status/1"], fun _ => okCommentEnv⟩

/-- Run environment with one collected tweet whose secondary fetch throws. -/
def sampleEnvThrow : RunEnv :=
  ⟨some sampleTab, fun _ => [sampleTweet "/a/status/1"], fun _ => badCommentEnv⟩

/-- Run environment whose tab has no recorded address. -/
def sampleEnvNoUrl : RunEnv :=
  ⟨some ⟨1, none⟩, fun _ => [sampleTweet "/a/status/1"], fun _ => okCommentEnv⟩

/-- Run environment in which the view disappears during the per-item loop. -/
def sampleEnvTabLoss : RunEnv :=
  ⟨some sampleTab, fun _ => [sampleTweet "/a/status/1"],
    fun _ => noTabCommentEnv⟩

/-- One-step unfolding of `scrollLoop`, stated without local lets so it can
be rewritten with. -/
theorem scrollLoop_step (beh : DocBehavior) (target fuel previousHeight : Nat)
    (seen : List String) (tweets : List Tweet) (attempt : Nat) :
    scrollLoop beh target (fuel + 1) previousHeight seen tweets attempt =
      if (beh attempt).scrollHeight = previousHeight ∨
          target ≤ (processTick seen tweets (beh attempt).nodes).2.length ∨
          maxScrollAttempts ≤ attempt then
        some ((processTick seen tweets (beh attempt).nodes).2, attempt)
      else
        scrollLoop beh target fuel (beh attempt).scrollHeight
          (processTick seen tweets (beh attempt).nodes).1
          (processTick seen tweets (beh attempt).nodes).2 (attempt + 1) := rfl

/-- The loop always resolves within the attempt ceiling, whatever the
document does: fuel `maxScrollAttempts` suffices. -/
theorem scrollLoop_total (beh : DocBehavior) (target : Nat) :
    ∀ fuel previousHeight seen tweets attempt,
      attempt ≤ maxScrollAttempts → maxScrollAttempts < fuel + attempt →
      ∃ res T, scrollLoop beh target fuel previousHeight seen tweets attempt =
          some (res, T) ∧ attempt ≤ T ∧ T ≤ maxScrollAttempts := by
  intro fuel
  induction fuel with
  | zero => intro _ _ _ attempt h1 h2; omega
  | succ fuel ih =>
    intro previousHeight seen tweets attempt h1 h2
    rw [scrollLoop_step]
    by_cases hc : (beh attempt).scrollHeight = previousHeight ∨
        target ≤ (processTick seen tweets (beh attempt).nodes).2.length ∨
        maxScrollAttempts ≤ attempt
    · rw [if_pos hc]
      exact ⟨_, attempt, rfl, le_refl _, h1⟩
    · rw [if_neg hc]
      have hlt : attempt < maxScrollAttempts := by
        rcases Nat.lt_or_ge attempt maxScrollAttempts with h | h
        · exact h
        · exact absurd (Or.inr (Or.inr h)) hc
      obtain ⟨res, T, heq, hT1, hT2⟩ :=
        ih (beh attempt).scrollHeight
          (processTick seen tweets (beh attempt).nodes).1
          (processTick seen tweets (beh attempt).nodes).2 (attempt + 1)
          (by omega) (by omega)
      exact ⟨res, T, heq, by omega, hT2⟩

theorem firstSeenDistinct_append (seen xs ys : List String) :
    firstSeenDistinct seen (xs ++ ys) =
      firstSeenDistinct seen xs ++
        firstSeenDistinct (seen ++ firstSeenDistinct seen xs) ys := by
  induction xs generalizing seen with
  | nil => simp [firstSeenDistinct]
  | cons u xs ih =>
    by_cases hu : u ∈ seen
    · simp only [List.cons_append, firstSeenDistinct, if_pos hu]
      exact ih seen
    · simp only [List.cons_append, firstSeenDistinct, if_neg hu, List.append_eq]
      rw [ih (seen ++ [u])]
      simp [List.append_assoc]

theorem mem_seen_of_mem_firstSeenDistinct (us : List String) :
    ∀ seen u, u ∈ firstSeenDistinct seen us → u ∉ seen := by
  induction us with
  | nil => intro seen u h; simp [firstSeenDistinct] at h
  | cons v us ih =>
    intro seen u h
    by_cases hv : v ∈ seen
    · rw [firstSeenDistinct, if_pos hv] at h
      exact ih seen u h
    · rw [firstSeenDistinct, if_neg hv] at h
      rcases List.mem_cons.mp h with h | h
      · exact h ▸ hv
      · have := ih (seen ++ [v]) u h
        intro hc
        exact this (List.mem_append_left _ hc)

theorem firstSeenDistinct_nodup (us : List String) :
    ∀ seen, (firstSeenDistinct seen us).Nodup := by
  induction us with
  | nil => intro seen; simp [firstSeenDistinct]
  | cons v us ih =>
    intro seen
    by_cases hv : v ∈ seen
    · rw [firstSeenDistinct, if_pos hv]; exact ih seen
    · rw [firstSeenDistinct, if_neg hv]
      refine List.nodup_cons.mpr ⟨?_, ih (seen ++ [v])⟩
      intro hc
      have := mem_seen_of_mem_firstSeenDistinct us (seen ++ [v]) v hc
      exact this (List.mem_append_right _ (List.mem_singleton.mpr rfl))

theorem firstSeenDistinct_of_all_seen (us : List String) :
    ∀ seen, (∀ u ∈ us, u ∈ seen) → firstSeenDistinct seen us = [] := by
  induction us with
  | nil => intro seen _; rfl
  | cons v us ih =>
    intro seen h
    rw [firstSeenDistinct, if_pos (h v (List.mem_cons_self v us))]
    exact ih seen fun u hu => h u (List.mem_cons_of_mem v hu)

theorem mem_seen_append_firstSeenDistinct (us : List String) :
    ∀ seen u, u ∈ us → u ∈ seen ++ firstSeenDistinct seen us := by
  induction us with
  | nil => intro seen u h; simp at h
  | cons v us ih =>
    intro seen u h
    by_cases hv : v ∈ seen
    · rw [firstSeenDistinct, if_pos hv]
      rcases List.mem_cons.mp h with h | h
      · exact List.mem_append_left _ (h ▸ hv)
      · exact ih seen u h
    · rw [firstSeenDistinct, if_neg hv]
      rcases List.mem_cons.mp h with h | h
      · subst h; exact List.mem_append_right _ (List.mem_cons_self u _)
      · have h2 := ih (seen ++ [v]) u h
        simp only [List.mem_append, List.mem_cons, List.mem_singleton] at h2 ⊢
        tauto

theorem firstSeenDistinct_of_disjoint_nodup (ds : List String) :
    ∀ seen, ds.Nodup → (∀ d ∈ ds, d ∉ seen) → firstSeenDistinct seen ds = ds := by
  induction ds with
  | nil => intro seen _ _; rfl
  | cons d ds ih =>
    intro seen hnd hdis
    rw [firstSeenDistinct, if_neg (hdis d (List.mem_cons_self d ds))]
    congr 1
    refine ih (seen ++ [d]) (List.nodup_cons.mp hnd).2 ?_
    intro x hx hc
    rcases List.mem_append.mp hc with h | h
    · exact hdis x (List.mem_cons_of_mem d hx) h
    · exact (List.nodup_cons.mp hnd).1 (List.mem_singleton.mp h ▸ hx)

theorem firstSeenDistinct_replicate (u : String) (N : Nat) :
    ∀ seen, u ∉ seen → 1 ≤ N →
      firstSeenDistinct seen (List.replicate N u) = [u] := by
  induction N with
  | zero => intro _ _ h; omega
  | succ N ih =>
    intro seen hu _
    rw [List.replicate_succ, firstSeenDistinct, if_neg hu]
    rcases Nat.eq_zero_or_pos N with h0 | h0
    · subst h0; rfl
    · congr 1
      apply firstSeenDistinct_of_all_seen
      intro x hx
      rw [List.eq_of_mem_replicate hx]
      exact List.mem_append_right _ (List.mem_singleton.mpr rfl)

theorem processTick_fst (ns : List DomNode) :
    ∀ seen tweets, (processTick seen tweets ns).1 =
      seen ++ firstSeenDistinct seen (tickUrls ns) := by
  induction ns with
  | nil => intro seen tweets; simp [processTick, tickUrls, firstSeenDistinct]
  | cons n ns ih =>
    intro seen tweets
    cases hsh : n.statusHref with
    | none => rw [processTick, tickUrls]; simp only [hsh]; exact ih seen tweets
    | some url =>
      rw [processTick, tickUrls]; simp only [hsh]
      by_cases hu : url = ""
      · rw [if_pos (Or.inl hu), if_pos hu]; exact ih seen tweets
      · rw [if_neg hu]
        by_cases hmem : url ∈ seen
        · rw [if_pos (Or.inr hmem), firstSeenDistinct, if_pos hmem]
          exact ih seen tweets
        · rw [if_neg (by tauto), firstSeenDistinct, if_neg hmem]
          rw [ih (seen ++ [url]) (tweets ++ [extractTweet url n])]
          simp [List.append_assoc]

theorem processTick_snd_map (ns : List DomNode) :
    ∀ seen tweets, (processTick seen tweets ns).2.map (·.tweetUrl) =
      tweets.map (·.tweetUrl) ++ firstSeenDistinct seen (tickUrls ns) := by
  induction ns with
  | nil => intro seen tweets; simp [processTick, tickUrls, firstSeenDistinct]
  | cons n ns ih =>
    intro seen tweets
    cases hsh : n.statusHref with
    | none => rw [processTick, tickUrls]; simp only [hsh]; exact ih seen tweets
    | some url =>
      rw [processTick, tickUrls]; simp only [hsh]
      by_cases hu : url = ""
      · rw [if_pos (Or.inl hu), if_pos hu]; exact ih seen tweets
      · rw [if_neg hu]
        by_cases hmem : url ∈ seen
        · rw [if_pos (Or.inr hmem), firstSeenDistinct, if_pos hmem]
          exact ih seen tweets
        · rw [if_neg (by tauto), firstSeenDistinct, if_neg hmem]
          rw [ih (seen ++ [url]) (tweets ++ [extractTweet url n])]
          simp [extractTweet, List.append_assoc]

theorem processTick_of_all_seen (ns : List DomNode) :
    ∀ seen tweets, (∀ u ∈ tickUrls ns, u ∈ seen) →
      processTick seen tweets ns = (seen, tweets) := by
  induction ns with
  | nil => intro seen tweets _; rfl
  | cons n ns ih =>
    intro seen tweets h
    cases hsh : n.statusHref with
    | none =>
      rw [processTick]; simp only [hsh]
      apply ih
      intro u hu
      apply h
      rw [tickUrls]; simp only [hsh]; exact hu
    | some url =>
      rw [processTick]; simp only [hsh]
      by_cases hu : url = ""
      · rw [if_pos (Or.inl hu)]
        apply ih
        intro u hmem
        apply h
        rw [tickUrls]; simp only [hsh]; rw [if_pos hu]; exact hmem
      · have hurl : url ∈ seen := by
          apply h
          rw [tickUrls]; simp only [hsh]
          rw [if_neg hu]
          exact List.mem_cons_self url _
        rw [if_pos (Or.inr hurl)]
        apply ih
        intro u hmem
        apply h
        rw [tickUrls]; simp only [hsh]; rw [if_neg hu]
        exact List.mem_cons_of_mem url hmem

/-- Main characterization of the polling loop: a resolving run accumulates
exactly the first-seen distinct urls of the tick-indexed url stream, in
order, appended to whatever was already accumulated. -/
theorem scrollLoop_spec (beh : DocBehavior) (target : Nat) :
    ∀ fuel previousHeight seen tweets attempt res T,
      scrollLoop beh target fuel previousHeight seen tweets attempt =
          some (res, T) →
      attempt ≤ T ∧
        res.map (·.tweetUrl) = tweets.map (·.tweetUrl) ++
          firstSeenDistinct seen (urlStream beh attempt (T + 1 - attempt)) := by
  intro fuel
  induction fuel with
  | zero => intro _ _ _ _ _ _ h; simp [scrollLoop] at h
  | succ fuel ih =>
    intro previousHeight seen tweets attempt res T h
    rw [scrollLoop_step] at h
    by_cases hc : (beh attempt).scrollHeight = previousHeight ∨
        target ≤ (processTick seen tweets (beh attempt).nodes).2.length ∨
        maxScrollAttempts ≤ attempt
    · rw [if_pos hc] at h
      obtain ⟨hres, hT⟩ : (processTick seen tweets (beh attempt).nodes).2 = res ∧
          attempt = T := by
        have := Option.some.inj h
        exact ⟨congrArg Prod.fst this, congrArg Prod.snd this⟩
      subst hT
      refine ⟨le_refl _, ?_⟩
      rw [← hres, processTick_snd_map]
      have h1 : attempt + 1 - attempt = 1 := by omega
      rw [h1]
      simp [urlStream]
    · rw [if_neg hc] at h
      obtain ⟨hle, hmap⟩ := ih (beh attempt).scrollHeight
        (processTick seen tweets (beh attempt).nodes).1
        (processTick seen tweets (beh attempt).nodes).2 (attempt + 1) res T h
      refine ⟨by omega, ?_⟩
      rw [hmap, processTick_snd_map, processTick_fst]
      have h1 : T + 1 - attempt = (T - attempt) + 1 := by omega
      have h2 : T + 1 - (attempt + 1) = T - attempt := by omega
      rw [h2] at *
      rw [h1, urlStream, firstSeenDistinct_append]
      simp [List.append_assoc]

theorem urlStream_nil (beh : DocBehavior)
    (h : ∀ t, tickUrls (beh t).nodes = []) :
    ∀ n a, urlStream beh a n = [] := by
  intro n
  induction n with
  | zero => intro a; rfl
  | succ n ih => intro a; rw [urlStream, h a, ih (a + 1)]; rfl

theorem urlStream_const (d : DocTick) :
    ∀ n a, urlStream (fun _ => d) a n = repStream (tickUrls d.nodes) n := by
  intro n
  induction n with
  | zero => intro a; rfl
  | succ n ih => intro a; rw [urlStream, repStream, ih (a + 1)]

theorem firstSeenDistinct_repStream (us : List String) (n : Nat) (hn : 1 ≤ n) :
    ∀ seen, firstSeenDistinct seen (repStream us n) = firstSeenDistinct seen us := by
  induction n with
  | zero => omega
  | succ n ih =>
    intro seen
    rw [repStream, firstSeenDistinct_append]
    rcases Nat.eq_zero_or_pos n with h0 | h0
    · subst h0; simp [repStream, firstSeenDistinct]
    · rw [ih h0 (seen ++ firstSeenDistinct seen us)]
      rw [firstSeenDistinct_of_all_seen us _
        (fun u hu => mem_seen_append_firstSeenDistinct us seen u hu)]
      simp

/-- A run whose first two ticks see the same nonzero content extent, the
same (already exhausted) node list, and too few items for the target,
resolves on tick 2 by extent stagnation. -/
theorem scrollLoop_two_ticks (beh : DocBehavior) (target fuel : Nat)
    (h1 : (beh 1).scrollHeight ≠ 0)
    (h2 : (beh 2).scrollHeight = (beh 1).scrollHeight)
    (hsame : processTick (processTick [] [] (beh 1).nodes).1
        (processTick [] [] (beh 1).nodes).2 (beh 2).nodes =
        processTick [] [] (beh 1).nodes)
    (htarget : ¬ target ≤ (processTick [] [] (beh 1).nodes).2.length) :
    scrollLoop beh target (fuel + 1 + 1) 0 [] [] 1 =
      some ((processTick [] [] (beh 1).nodes).2, 2) := by
  rw [scrollLoop_step]
  rw [if_neg (by
    push_neg
    exact ⟨h1, by omega, by simp [maxScrollAttempts]⟩)]
  rw [scrollLoop_step]
  rw [if_pos (Or.inl h2)]
  rw [show ((1 : Nat) + 1) = 2 from rfl, hsame]

theorem scrapeComments_fst_of_throws (e : CommentEnv) (u : String)
    (h : fetchThrows e) : (scrapeComments e u).1 = [] := by
  rcases h with h | h | h
  · simp [scrapeComments, h]
  · cases htab : e.tab with
    | none => simp [scrapeComments, htab]
    | some t => simp [scrapeComments, htab, h]
  · cases htab : e.tab with
    | none => simp [scrapeComments, htab]
    | some t =>
      cases hn : e.navigateOk with
      | false => simp [scrapeComments, htab, hn]
      | true => simp [scrapeComments, htab, hn, h]

theorem scrapeTweets_some (env : RunEnv) (c : Nat) (tab : TabInfo)
    (h : env.tab = some tab) :
    scrapeTweets env c = scrapeTweetsWithTab env c tab := by
  unfold scrapeTweets
  rw [h]

theorem scrapeTweetsWithTab_ok (env : RunEnv) (c : Nat) (tab : TabInfo)
    (hne : env.collectItems c ≠ []) :
    scrapeTweetsWithTab env c tab =
      (Except.ok (attachComments env.commentEnv 0 (env.collectItems c)).1,
        (attachComments env.commentEnv 0 (env.collectItems c)).2 ++
          (match tab.url with
           | some s => if s = "" then [] else [s]
           | none => [])) := by
  unfold scrapeTweetsWithTab
  rw [if_neg (by simpa [List.length_eq_zero] using hne)]

theorem attachComments_fst_length (cenv : Nat → CommentEnv) :
    ∀ ts i, (attachComments cenv i ts).1.length = ts.length := by
  intro ts
  induction ts with
  | nil => intro i; rfl
  | cons t ts ih => intro i; simp [attachComments, ih (i + 1)]

theorem attachComments_fst_get (cenv : Nat → CommentEnv) :
    ∀ ts i j (hj : j < ts.length)
      (hj2 : j < (attachComments cenv i ts).1.length),
      (attachComments cenv i ts).1.get ⟨j, hj2⟩ =
        (attachOne (cenv (i + j)) (ts.get ⟨j, hj⟩)).1 := by
  intro ts
  induction ts with
  | nil => intro i j hj _; simp at hj
  | cons t ts ih =>
    intro i j hj hj2
    cases j with
    | zero => rfl
    | succ j =>
      have hj' : j < ts.length := by simpa using hj
      simp only [attachComments, List.get_cons_succ]
      have hidx : i + (j + 1) = i + 1 + j := by omega
      rw [hidx]
      exact ih (i + 1) j hj' (by rw [attachComments_fst_length]; exact hj')

theorem attachOne_frame (e : CommentEnv) (t : Tweet) :
    (attachOne e t).1.tweetUrl = t.tweetUrl ∧
    (attachOne e t).1.tweet = t.tweet ∧
    (attachOne e t).1.userName = t.userName ∧
    (attachOne e t).1.timestamp = t.timestamp ∧
    (attachOne e t).1.likes = t.likes ∧
    (attachOne e t).1.retweets = t.retweets := by
  unfold attachOne
  by_cases h : t.tweetUrl = ""
  · rw [if_pos h]; exact ⟨rfl, rfl, rfl, rfl, rfl, rfl⟩
  · rw [if_neg h]; exact ⟨rfl, rfl, rfl, rfl, rfl, rfl⟩

theorem attachComments_comments_empty (cenv : Nat → CommentEnv)
    (hall : ∀ i, (cenv i).tab = none) :
    ∀ ts i, (∀ t ∈ ts, t.comments = []) →
      ∀ t ∈ (attachComments cenv i ts).1, t.comments = [] := by
  intro ts
  induction ts with
  | nil => intro i _ t ht; simp [attachComments] at ht
  | cons t0 ts ih =>
    intro i hts t ht
    rcases List.mem_cons.mp ht with h | h
    · subst h
      unfold attachOne
      by_cases hu : t0.tweetUrl = ""
      · rw [if_pos hu]
        exact hts t0 (List.mem_cons_self t0 ts)
      · rw [if_neg hu]
        show (scrapeComments (cenv i) t0.tweetUrl).1 = []
        simp [scrapeComments, hall i]
    · exact ih (i + 1) (fun x hx => hts x (List.mem_cons_of_mem t0 hx)) t h

/-- C1: within one run of the Collector no two accumulated tweets share a
`tweetUrl` (set-based dedup on the persistent seen-set), and a static
document offering N nodes with one shared url plus M nodes with distinct
urls yields exactly M+1 tweets, duplicates collapsed to the first
occurrence. -/
theorem collect_dedup (beh : DocBehavior) (target : Nat) (res : List Tweet)
    (T : Nat) (hrun : scrollAndCollect beh target = some (res, T))
    (d : DocTick) (N : Nat) (u : String) (ds : List String)
    (res2 : List Tweet) (T2 : Nat)
    (hrun2 : scrollAndCollect (fun _ => d) target = some (res2, T2))
    (hN : 1 ≤ N) (hurls : tickUrls d.nodes = List.replicate N u ++ ds)
    (hnd : ds.Nodup) (hu : u ∉ ds) :
    (res.map (·.tweetUrl)).Nodup ∧
    res2.map (·.tweetUrl) = u :: ds ∧
    res2.length = ds.length + 1 := by
  have spec1 := scrollLoop_spec beh target maxScrollAttempts 0 [] [] 1 res T hrun
  have spec2 := scrollLoop_spec (fun _ => d) target maxScrollAttempts 0 [] [] 1
    res2 T2 hrun2
  obtain ⟨hT1, hmap1⟩ := spec1
  obtain ⟨hT2, hmap2⟩ := spec2
  have hmap2' : res2.map (·.tweetUrl) = u :: ds := by
    rw [hmap2, Nat.add_sub_cancel, urlStream_const d T2 1,
      firstSeenDistinct_repStream (tickUrls d.nodes) T2 hT2 [], hurls,
      firstSeenDistinct_append]
    rw [firstSeenDistinct_replicate u N [] (List.not_mem_nil u) hN]
    simp [firstSeenDistinct_of_disjoint_nodup ds [u] hnd
        (fun x hx hc => hu (List.mem_singleton.mp hc ▸ hx))]
  refine ⟨?_, hmap2', ?_⟩
  · rw [hmap1]
    simp only [List.map_nil, List.nil_append]
    exact firstSeenDistinct_nodup _ _
  · have := congrArg List.length hmap2'
    simpa using this

/-- C1 witness: a concrete static document with 2 nodes sharing one url and
1 node with a distinct url resolves to exactly 2 tweets with the urls in
first-seen order. -/
theorem collect_dedup_witness :
    (([sampleTweet "/a/status/1", sampleTweet "/a/status/2"].map
        (·.tweetUrl)).Nodup) ∧
    [sampleTweet "/a/status/1", sampleTweet "/a/status/2"].map (·.tweetUrl) =
      "/a/status/1" :: ["/a/status/2"] ∧
    [sampleTweet "/a/status/1", sampleTweet "/a/status/2"].length =
      ["/a/status/2"].length + 1 :=
  collect_dedup (fun _ => sampleDoc2) 50
    [sampleTweet "/a/status/1", sampleTweet "/a/status/2"] 2 rfl
    sampleDoc2 2 "/a/status/1" ["/a/status/2"]
    [sampleTweet "/a/status/1", sampleTweet "/a/status/2"] 2 rfl
    (by decide) rfl (by decide) (by decide)

/-- C2: for every document behaviour and target, the Collector resolves
within the 50-tick attempt ceiling; a feed that never yields a candidate
item resolves with the empty list rather than an error. -/
theorem collect_terminates (beh : DocBehavior) (target : Nat)
    (beh0 : DocBehavior) (h0 : ∀ t, tickUrls (beh0 t).nodes = []) :
    (∃ res T, scrollAndCollect beh target = some (res, T) ∧
      T ≤ maxScrollAttempts) ∧
    (scrollAndCollect beh0 target).map Prod.fst = some [] := by
  constructor
  · obtain ⟨res, T, h, _, hT⟩ := scrollLoop_total beh target maxScrollAttempts
      0 [] [] 1 (by simp [maxScrollAttempts]) (by simp [maxScrollAttempts])
    exact ⟨res, T, h, hT⟩
  · obtain ⟨res, T, h, _, _⟩ := scrollLoop_total beh0 target maxScrollAttempts
      0 [] [] 1 (by simp [maxScrollAttempts]) (by simp [maxScrollAttempts])
    obtain ⟨_, hmap⟩ := scrollLoop_spec beh0 target maxScrollAttempts
      0 [] [] 1 res T h
    have hres : res = [] := by
      have : res.map (·.tweetUrl) = [] := by
        rw [hmap, urlStream_nil beh0 h0]
        simp [firstSeenDistinct]
      exact List.map_eq_nil_iff.mp this
    have hcoll : scrollAndCollect beh0 target = some (res, T) := h
    rw [hcoll, hres]
    rfl

/-- C2 witness: a concrete run terminates within the ceiling, and the
empty feed resolves with the empty sequence. -/
theorem collect_terminates_witness :
    (∃ res T, scrollAndCollect (fun _ => sampleDoc2) 5 = some (res, T) ∧
      T ≤ maxScrollAttempts) ∧
    (scrollAndCollect emptyBeh 5).map Prod.fst = some [] :=
  collect_terminates (fun _ => sampleDoc2) 5 emptyBeh (fun _ => rfl)

/-- C5: the urls of the Collector's resolved list are exactly the sequence
of first-seen distinct urls across the run's polling ticks, in order. -/
theorem collect_order (beh : DocBehavior) (target : Nat) (res : List Tweet)
    (T : Nat) (hrun : scrollAndCollect beh target = some (res, T)) :
    res.map (·.tweetUrl) = firstSeenDistinct [] (urlStream beh 1 T) := by
  obtain ⟨_, hmap⟩ := scrollLoop_spec beh target maxScrollAttempts
    0 [] [] 1 res T hrun
  rw [hmap, Nat.add_sub_cancel]
  simp

/-- C5 witness: the concrete duplicate-bearing run yields its urls in
first-seen order. -/
theorem collect_order_witness :
    [sampleTweet "/a/status/1", sampleTweet "/a/status/2"].map (·.tweetUrl) =
      firstSeenDistinct [] (urlStream (fun _ => sampleDoc2) 1 2) :=
  collect_order (fun _ => sampleDoc2) 50
    [sampleTweet "/a/status/1", sampleTweet "/a/status/2"] 2 rfl

/-- C7 counterexample: on a static document with 3 distinct candidate nodes
and nonzero extent, target 50, the Collector resolves with 3 items on tick
2 — not on tick 1 as claimed, because `previousHeight` starts at 0 and
cannot equal the nonzero extent on the first tick. -/
theorem scenarioA_tick1_false :
    (scrollAndCollect (fun _ => sampleDoc3) 50).map
        (fun r => (r.1.length, r.2)) = some (3, 2) ∧
    (scrollAndCollect (fun _ => sampleDoc3) 50).map Prod.snd ≠ some 1 :=
  ⟨rfl, by
    rw [show (scrollAndCollect (fun _ => sampleDoc3) 50).map Prod.snd =
      some 2 from rfl]
    simp⟩

/-- C7 (amended): on a static document with exactly 3 distinct candidate
nodes, nonzero content extent and target at least 4, the Collector resolves
with exactly 3 items, terminating via the content-extent-stagnation
condition on tick 2 (the first tick compares against the initial extent
register 0, so a static nonzero extent is first observed unchanged on the
second tick). -/
theorem scenarioA_stagnation_tick2 (d : DocTick) (u1 u2 u3 : String)
    (target : Nat) (hheight : d.scrollHeight ≠ 0)
    (hurls : tickUrls d.nodes = [u1, u2, u3])
    (h12 : u1 ≠ u2) (h13 : u1 ≠ u3) (h23 : u2 ≠ u3) (htarget : 4 ≤ target) :
    (scrollAndCollect (fun _ => d) target).map
      (fun r => (r.1.length, r.2)) = some (3, 2) := by
  have hF : firstSeenDistinct [] (tickUrls d.nodes) = [u1, u2, u3] := by
    rw [hurls]
    apply firstSeenDistinct_of_disjoint_nodup
    · simp [List.nodup_cons, h12, h13, h23]
    · simp
  have hfst : (processTick [] [] d.nodes).1 = [u1, u2, u3] := by
    rw [processTick_fst, hF]
    rfl
  have hsnd : (processTick [] [] d.nodes).2.map (·.tweetUrl) = [u1, u2, u3] := by
    rw [processTick_snd_map, hF]
    rfl
  have hlen : (processTick [] [] d.nodes).2.length = 3 := by
    have := congrArg List.length hsnd
    simpa using this
  have hsame : processTick (processTick [] [] d.nodes).1
      (processTick [] [] d.nodes).2 d.nodes = processTick [] [] d.nodes := by
    have h := processTick_of_all_seen d.nodes (processTick [] [] d.nodes).1
      (processTick [] [] d.nodes).2
      (by intro x hx; rw [hurls] at hx; rw [hfst]; exact hx)
    rw [h]
  have h2t := scrollLoop_two_ticks (fun _ => d) target 48 hheight rfl hsame
    (by
      show ¬ target ≤ (processTick [] [] d.nodes).2.length
      rw [hlen]
      omega)
  have hcoll : scrollAndCollect (fun _ => d) target =
      some ((processTick [] [] d.nodes).2, 2) := h2t
  rw [hcoll]
  simp [hlen]

/-- C7 (amended) witness: the concrete 3-node static document resolves with
3 items on tick 2. -/
theorem scenarioA_stagnation_tick2_witness :
    (scrollAndCollect (fun _ => sampleDoc3) 50).map
      (fun r => (r.1.length, r.2)) = some (3, 2) :=
  scenarioA_stagnation_tick2 sampleDoc3 "/a/status/1" "/a/status/2"
    "/a/status/3" 50 (by decide) rfl (by decide) (by decide) (by decide)
    (by decide)

/-- C3: the run fails with `noActiveContext` exactly when no automatable
view is available at the start (performing no navigation), fails with
`emptyResult` exactly when the Collector resolves with zero items
(attempting no restoration), and in every other case resolves with the
harvested list — secondary-fetch environments never make it fail. -/
theorem run_failure_modes (env1 : RunEnv) (c1 : Nat) (h1 : env1.tab = none)
    (env2 : RunEnv) (c2 : Nat) (tab2 : TabInfo) (h2 : env2.tab = some tab2)
    (h2i : env2.collectItems c2 = [])
    (env3 : RunEnv) (c3 : Nat) (tab3 : TabInfo) (h3 : env3.tab = some tab3)
    (h3i : env3.collectItems c3 ≠ []) :
    scrapeTweets env1 c1 = (Except.error RunError.noActiveContext, []) ∧
    scrapeTweets env2 c2 = (Except.error RunError.emptyResult, []) ∧
    (scrapeTweets env3 c3).1 =
      Except.ok (attachComments env3.commentEnv 0 (env3.collectItems c3)).1 := by
  refine ⟨?_, ?_, ?_⟩
  · unfold scrapeTweets
    rw [h1]
  · rw [scrapeTweets_some env2 c2 tab2 h2]
    unfold scrapeTweetsWithTab
    rw [h2i]
    rfl
  · rw [scrapeTweets_some env3 c3 tab3 h3, scrapeTweetsWithTab_ok env3 c3 tab3 h3i]

/-- C3 witness: the three failure/success modes at concrete environments. -/
theorem run_failure_modes_witness :
    scrapeTweets sampleEnvNoTab 5 = (Except.error RunError.noActiveContext, []) ∧
    scrapeTweets sampleEnvEmpty 5 = (Except.error RunError.emptyResult, []) ∧
    (scrapeTweets sampleEnvOk 5).1 =
      Except.ok (attachComments sampleEnvOk.commentEnv 0
        (sampleEnvOk.collectItems 5)).1 :=
  run_failure_modes sampleEnvNoTab 5 rfl sampleEnvEmpty 5 sampleTab rfl rfl
    sampleEnvOk 5 sampleTab rfl (by simp [sampleEnvOk])

/-- Attaching over a truthy url overwrites `comments` with the fetch
result. -/
theorem attachOne_comments_of_ne (e : CommentEnv) (t : Tweet)
    (h : t.tweetUrl ≠ "") :
    (attachOne e t).1.comments = (scrapeComments e t.tweetUrl).1 := by
  unfold attachOne
  rw [if_neg h]

/-- C4: if the secondary fetch for the k-th collected item throws, the run
still resolves with all N items; item k is retained with empty comments,
and every item j is exactly the attachment of its own fetch environment to
the j-th collected tweet — unaffected by the k-th failure. -/
theorem run_fault_isolation (env : RunEnv) (c k : Nat) (tab : TabInfo)
    (htab : env.tab = some tab)
    (hk : k < (env.collectItems c).length)
    (hku : ((env.collectItems c).get ⟨k, hk⟩).tweetUrl ≠ "")
    (hthrow : fetchThrows (env.commentEnv k)) :
    (scrapeTweets env c).1 =
      Except.ok (attachComments env.commentEnv 0 (env.collectItems c)).1 ∧
    (attachComments env.commentEnv 0 (env.collectItems c)).1.length =
      (env.collectItems c).length ∧
    (∀ hk2 : k < (attachComments env.commentEnv 0 (env.collectItems c)).1.length,
      ((attachComments env.commentEnv 0 (env.collectItems c)).1.get
        ⟨k, hk2⟩).comments = []) ∧
    (∀ j (hj : j < (env.collectItems c).length)
        (hj2 : j < (attachComments env.commentEnv 0 (env.collectItems c)).1.length),
      (attachComments env.commentEnv 0 (env.collectItems c)).1.get ⟨j, hj2⟩ =
        (attachOne (env.commentEnv j) ((env.collectItems c).get ⟨j, hj⟩)).1) := by
  have hne : env.collectItems c ≠ [] := by
    intro h
    rw [h] at hk
    simp at hk
  refine ⟨?_, attachComments_fst_length env.commentEnv (env.collectItems c) 0,
    ?_, ?_⟩
  · rw [scrapeTweets_some env c tab htab, scrapeTweetsWithTab_ok env c tab hne]
  · intro hk2
    rw [attachComments_fst_get env.commentEnv (env.collectItems c) 0 k hk hk2,
      Nat.zero_add, attachOne_comments_of_ne _ _ hku]
    exact scrapeComments_fst_of_throws _ _ hthrow
  · intro j hj hj2
    rw [attachComments_fst_get env.commentEnv (env.collectItems c) 0 j hj hj2,
      Nat.zero_add]

/-- C4 witness: a concrete run whose only fetch throws still resolves with
the item, with empty comments. -/
theorem run_fault_isolation_witness :
    (scrapeTweets sampleEnvThrow 5).1 =
      Except.ok (attachComments sampleEnvThrow.commentEnv 0
        (sampleEnvThrow.collectItems 5)).1 ∧
    (attachComments sampleEnvThrow.commentEnv 0
        (sampleEnvThrow.collectItems 5)).1.length =
      (sampleEnvThrow.collectItems 5).length ∧
    (∀ hk2 : 0 < (attachComments sampleEnvThrow.commentEnv 0
        (sampleEnvThrow.collectItems 5)).1.length,
      ((attachComments sampleEnvThrow.commentEnv 0
        (sampleEnvThrow.collectItems 5)).1.get ⟨0, hk2⟩).comments = []) ∧
    (∀ j (hj : j < (sampleEnvThrow.collectItems 5).length)
        (hj2 : j < (attachComments sampleEnvThrow.commentEnv 0
          (sampleEnvThrow.collectItems 5)).1.length),
      (attachComments sampleEnvThrow.commentEnv 0
        (sampleEnvThrow.collectItems 5)).1.get ⟨j, hj2⟩ =
        (attachOne (sampleEnvThrow.commentEnv j)
          ((sampleEnvThrow.collectItems 5).get ⟨j, hj⟩)).1) :=
  run_fault_isolation sampleEnvThrow 5 0 sampleTab rfl (by decide) (by decide)
    (Or.inr (Or.inl rfl))

/-- C6: after the per-item loop, the i-th result item carries the same
`tweetUrl` that was fed to the i-th secondary fetch (the i-th collected
item's url), the item count is unchanged, and every field other than
`comments` is untouched — reply attachment never permutes, inserts, or
removes items. -/
theorem run_frame (env : RunEnv) (c : Nat) (tab : TabInfo)
    (htab : env.tab = some tab) (hne : env.collectItems c ≠ []) :
    (scrapeTweets env c).1 =
      Except.ok (attachComments env.commentEnv 0 (env.collectItems c)).1 ∧
    (attachComments env.commentEnv 0 (env.collectItems c)).1.length =
      (env.collectItems c).length ∧
    ∀ i (hi : i < (env.collectItems c).length)
      (hi2 : i < (attachComments env.commentEnv 0 (env.collectItems c)).1.length),
      ((attachComments env.commentEnv 0 (env.collectItems c)).1.get
          ⟨i, hi2⟩).tweetUrl = ((env.collectItems c).get ⟨i, hi⟩).tweetUrl ∧
      ((attachComments env.commentEnv 0 (env.collectItems c)).1.get
          ⟨i, hi2⟩).tweet = ((env.collectItems c).get ⟨i, hi⟩).tweet ∧
      ((attachComments env.commentEnv 0 (env.collectItems c)).1.get
          ⟨i, hi2⟩).userName = ((env.collectItems c).get ⟨i, hi⟩).userName ∧
      ((attachComments env.commentEnv 0 (env.collectItems c)).1.get
          ⟨i, hi2⟩).timestamp = ((env.collectItems c).get ⟨i, hi⟩).timestamp ∧
      ((attachComments env.commentEnv 0 (env.collectItems c)).1.get
          ⟨i, hi2⟩).likes = ((env.collectItems c).get ⟨i, hi⟩).likes ∧
      ((attachComments env.commentEnv 0 (env.collectItems c)).1.get
          ⟨i, hi2⟩).retweets = ((env.collectItems c).get ⟨i, hi⟩).retweets := by
  refine ⟨?_, attachComments_fst_length env.commentEnv (env.collectItems c) 0,
    ?_⟩
  · rw [scrapeTweets_some env c tab htab, scrapeTweetsWithTab_ok env c tab hne]
  · intro i hi hi2
    rw [attachComments_fst_get env.commentEnv (env.collectItems c) 0 i hi hi2,
      Nat.zero_add]
    exact attachOne_frame (env.commentEnv i) ((env.collectItems c).get ⟨i, hi⟩)

/-- C6 witness: concrete one-item run keeps the url and all non-comment
fields. -/
theorem run_frame_witness :
    (scrapeTweets sampleEnvOk 5).1 =
      Except.ok (attachComments sampleEnvOk.commentEnv 0
        (sampleEnvOk.collectItems 5)).1 ∧
    (attachComments sampleEnvOk.commentEnv 0
        (sampleEnvOk.collectItems 5)).1.length =
      (sampleEnvOk.collectItems 5).length ∧
    ∀ i (hi : i < (sampleEnvOk.collectItems 5).length)
      (hi2 : i < (attachComments sampleEnvOk.commentEnv 0
        (sampleEnvOk.collectItems 5)).1.length),
      ((attachComments sampleEnvOk.commentEnv 0
          (sampleEnvOk.collectItems 5)).1.get ⟨i, hi2⟩).tweetUrl =
        ((sampleEnvOk.collectItems 5).get ⟨i, hi⟩).tweetUrl ∧
      ((attachComments sampleEnvOk.commentEnv 0
          (sampleEnvOk.collectItems 5)).1.get ⟨i, hi2⟩).tweet =
        ((sampleEnvOk.collectItems 5).get ⟨i, hi⟩).tweet ∧
      ((attachComments sampleEnvOk.commentEnv 0
          (sampleEnvOk.collectItems 5)).1.get ⟨i, hi2⟩).userName =
        ((sampleEnvOk.collectItems 5).get ⟨i, hi⟩).userName ∧
      ((attachComments sampleEnvOk.commentEnv 0
          (sampleEnvOk.collectItems 5)).1.get ⟨i, hi2⟩).timestamp =
        ((sampleEnvOk.collectItems 5).get ⟨i, hi⟩).timestamp ∧
      ((attachComments sampleEnvOk.commentEnv 0
          (sampleEnvOk.collectItems 5)).1.get ⟨i, hi2⟩).likes =
        ((sampleEnvOk.collectItems 5).get ⟨i, hi⟩).likes ∧
      ((attachComments sampleEnvOk.commentEnv 0
          (sampleEnvOk.collectItems 5)).1.get ⟨i, hi2⟩).retweets =
        ((sampleEnvOk.collectItems 5).get ⟨i, hi⟩).retweets :=
  run_frame sampleEnvOk 5 sampleTab rfl (by simp [sampleEnvOk])

/-- C8: on the success path the run's final navigation is back to the
captured `originalUrl` exactly when that address is truthy; no navigation at
all happens on the `noActiveContext` or `emptyResult` fatal exits, and a
missing or empty original address suppresses the restoration. -/
theorem run_restoration (env : RunEnv) (c : Nat) (tab : TabInfo) (s : String)
    (htab : env.tab = some tab) (hurl : tab.url = some s) (hs : s ≠ "")
    (hne : env.collectItems c ≠ [])
    (env2 : RunEnv) (c2 : Nat) (h2 : env2.tab = none)
    (env3 : RunEnv) (c3 : Nat) (tab3 : TabInfo) (h3 : env3.tab = some tab3)
    (h3i : env3.collectItems c3 = [])
    (env4 : RunEnv) (c4 : Nat) (tab4 : TabInfo) (h4 : env4.tab = some tab4)
    (h4u : tab4.url = none ∨ tab4.url = some "")
    (h4i : env4.collectItems c4 ≠ []) :
    scrapeTweets env c =
      (Except.ok (attachComments env.commentEnv 0 (env.collectItems c)).1,
        (attachComments env.commentEnv 0 (env.collectItems c)).2 ++ [s]) ∧
    (scrapeTweets env2 c2).2 = [] ∧
    (scrapeTweets env3 c3).2 = [] ∧
    scrapeTweets env4 c4 =
      (Except.ok (attachComments env4.commentEnv 0 (env4.collectItems c4)).1,
        (attachComments env4.commentEnv 0 (env4.collectItems c4)).2) := by
  refine ⟨?_, ?_, ?_, ?_⟩
  · rw [scrapeTweets_some env c tab htab, scrapeTweetsWithTab_ok env c tab hne,
      hurl]
    simp [hs]
  · unfold scrapeTweets
    rw [h2]
  · rw [scrapeTweets_some env3 c3 tab3 h3]
    unfold scrapeTweetsWithTab
    rw [h3i]
    rfl
  · rw [scrapeTweets_some env4 c4 tab4 h4,
      scrapeTweetsWithTab_ok env4 c4 tab4 h4i]
    rcases h4u with h4u | h4u
    · rw [h4u]
      simp
    · rw [h4u]
      simp

/-- C8 witness: concrete runs showing the restoring trace, the empty traces
on the fatal exits, and the suppressed restoration. -/
theorem run_restoration_witness :
    scrapeTweets sampleEnvOk 5 =
      (Except.ok (attachComments sampleEnvOk.commentEnv 0
          (sampleEnvOk.collectItems 5)).1,
        (attachComments sampleEnvOk.commentEnv 0
          (sampleEnvOk.collectItems 5)).2 ++ ["https://twitter.com/search"]) ∧
    (scrapeTweets sampleEnvNoTab 5).2 = [] ∧
    (scrapeTweets sampleEnvEmpty 5).2 = [] ∧
    scrapeTweets sampleEnvNoUrl 5 =
      (Except.ok (attachComments sampleEnvNoUrl.commentEnv 0
          (sampleEnvNoUrl.collectItems 5)).1,
        (attachComments sampleEnvNoUrl.commentEnv 0
          (sampleEnvNoUrl.collectItems 5)).2) :=
  run_restoration sampleEnvOk 5 sampleTab "https://twitter.com/search" rfl rfl
    (by decide) (by simp [sampleEnvOk]) sampleEnvNoTab 5 rfl
    sampleEnvEmpty 5 sampleTab rfl rfl
    sampleEnvNoUrl 5 ⟨1, none⟩ rfl (Or.inl rfl) (by simp [sampleEnvNoUrl])

/-- C10: losing the automatable view during the per-item loop is absorbed:
`scrapeComments` returns no comments (and performs no navigation) when its
tab query fails, and a run whose per-item tab lookups all fail still
resolves with all collected items, each simply carrying empty comments;
`noActiveContext` is fatal only at the initial step. -/
theorem run_tab_loss_absorbed (e : CommentEnv) (u : String) (he : e.tab = none)
    (env : RunEnv) (c : Nat) (tab : TabInfo) (htab : env.tab = some tab)
    (hne : env.collectItems c ≠ [])
    (hcoll : ∀ t ∈ env.collectItems c, t.comments = [])
    (hall : ∀ i, (env.commentEnv i).tab = none) :
    scrapeComments e u = ([], []) ∧
    (scrapeTweets env c).1 =
      Except.ok (attachComments env.commentEnv 0 (env.collectItems c)).1 ∧
    (attachComments env.commentEnv 0 (env.collectItems c)).1.length =
      (env.collectItems c).length ∧
    ∀ t ∈ (attachComments env.commentEnv 0 (env.collectItems c)).1,
      t.comments = [] := by
  refine ⟨by simp [scrapeComments, he], ?_,
    attachComments_fst_length env.commentEnv (env.collectItems c) 0, ?_⟩
  · rw [scrapeTweets_some env c tab htab, scrapeTweetsWithTab_ok env c tab hne]
  · exact attachComments_comments_empty env.commentEnv hall
      (env.collectItems c) 0 hcoll

/-- C10 witness: concrete run in which every per-item tab query fails still
resolves, with empty comments. -/
theorem run_tab_loss_absorbed_witness :
    scrapeComments noTabCommentEnv "/a/status/1" = ([], []) ∧
    (scrapeTweets sampleEnvTabLoss 5).1 =
      Except.ok (attachComments sampleEnvTabLoss.commentEnv 0
        (sampleEnvTabLoss.collectItems 5)).1 ∧
    (attachComments sampleEnvTabLoss.commentEnv 0
        (sampleEnvTabLoss.collectItems 5)).1.length =
      (sampleEnvTabLoss.collectItems 5).length ∧
    ∀ t ∈ (attachComments sampleEnvTabLoss.commentEnv 0
        (sampleEnvTabLoss.collectItems 5)).1, t.comments = [] :=
  run_tab_loss_absorbed noTabCommentEnv "/a/status/1" rfl sampleEnvTabLoss 5
    sampleTab rfl (by simp [sampleEnvTabLoss]) (by decide) (fun _ => rfl)

/-- C9 counterexample: the exported record is not exactly the claimed
totalItems/items shape — at the empty harvest with search term "q" the
export carries the additional top-level keys `searchItem` and
`scrapeTimestamp`. -/
theorem export_shape_exact_false :
    formattedData [] "q" "2025-01-01T00:00:00.000Z" ≠ claimedExport [] ∧
    Json.topKeys (formattedData [] "q" "2025-01-01T00:00:00.000Z") =
      ["totalTweets", "searchItem", "scrapeTimestamp", "tweets"] := by
  constructor
  · intro h
    have h2 := congrArg Json.topKeys h
    simp [formattedData, claimedExport, Json.topKeys] at h2
  · rfl

/-- C9 (amended): the export record carries the claimed nested item/reply
shape under the claimed keys, plus exactly two additional top-level keys
`searchItem` and `scrapeTimestamp`; the `totalTweets` and `tweets` fields
agree with the spec-shaped record for every harvest. -/
theorem export_shape_with_extras (tweets : List Tweet)
    (searchTerm scrapeTimestamp : String) :
    Json.topKeys (formattedData tweets searchTerm scrapeTimestamp) =
      ["totalTweets", "searchItem", "scrapeTimestamp", "tweets"] ∧
    Json.field (formattedData tweets searchTerm scrapeTimestamp)
        "totalTweets" = Json.field (claimedExport tweets) "totalTweets" ∧
    Json.field (formattedData tweets searchTerm scrapeTimestamp) "tweets" =
      Json.field (claimedExport tweets) "tweets" :=
  ⟨rfl, rfl, rfl⟩

end TweetScraper


